import Mathlib

/-!
Verification development for the RustyWgpu repository.

Shallow embedding of the two source files:
  * `src/wgpu-framework/src/pipeline.rs` — the fluent `PipelineBuilder`;
  * `src/src/lib.rs` — the render `State` machine and the event-loop
    redraw arm of `run`.

GPU handles (pipeline layouts, shader modules, buffers, bind groups,
textures) are opaque to the code under verification: the builder and the
state machine only store and forward them.  They are embedded as type
parameters (for the builder, mirroring the Rust lifetime-generic struct)
or as `Nat` tokens (for the handles held by `State`).  Rust panics and
`Result` errors are embedded with `Except`.  The external GPU surface is
embedded through its observable effects: the list of configurations
applied to it, and the acquisition outcome supplied to `render`.
-/

namespace RustyWgpu

/-- `wgpu::PrimitiveTopology`. -/
inductive PrimitiveTopology
  | PointList
  | LineList
  | LineStrip
  | TriangleList
  | TriangleStrip
deriving DecidableEq

/-- `wgpu::FrontFace`. -/
inductive FrontFace
  | Ccw
  | Cw
deriving DecidableEq

/-- `wgpu::Face`. -/
inductive Face
  | Front
  | Back
deriving DecidableEq

/-- `wgpu::PolygonMode`. -/
inductive PolygonMode
  | Fill
  | Line
  | Point
deriving DecidableEq

/-- `wgpu::IndexFormat`. -/
inductive IndexFormat
  | Uint16
  | Uint32
deriving DecidableEq

/-- `wgpu::SurfaceError`: the error type of `Surface::get_current_texture`. -/
inductive SurfaceError
  | Timeout
  | Outdated
  | Lost
  | OutOfMemory
deriving DecidableEq

/-- `winit::event_loop::ControlFlow` (the variants the source uses). -/
inductive ControlFlow
  | Poll
  | Wait
  | Exit
deriving DecidableEq

/-- `PipelineBuilder` from `src/wgpu-framework/src/pipeline.rs`.

The Rust struct is generic over a lifetime `'a`; the borrowed resource
types are embedded as type parameters: `L` for `&'a wgpu::PipelineLayout`,
`S` for `wgpu::ShaderModuleDescriptor<'a>`, `V` for
`wgpu::VertexBufferLayout<'a>`, `C` for `wgpu::ColorTargetState`,
`D` for `wgpu::DepthStencilState`.  `sample_mask` is a `u64`, embedded as
`Nat` (its only source value, `!0`, is `2^64 - 1`); `multiview` is an
`Option<NonZeroU32>`, embedded as `Option Nat`. -/
structure PipelineBuilder (L S V C D : Type) where
  layout : Option L
  vertex_shader : Option S
  vertex_buffers : List V
  fragment_shader : Option S
  color_states : List (Option C)
  primitive_topology : PrimitiveTopology
  front_face : FrontFace
  cull_mode : Option Face
  polygon_mode : PolygonMode
  depth_stencil : Option D
  sample_count : Nat
  sample_mask : Nat
  alpha_to_coverage_enabled : Bool
  multiview : Option Nat

/-- `PipelineBuilder::new` (pipeline.rs lines 41-61). -/
def PipelineBuilder.new {L S V C D : Type} : PipelineBuilder L S V C D where
  layout := none
  vertex_shader := none
  vertex_buffers := []
  fragment_shader := none
  color_states := []
  primitive_topology := PrimitiveTopology.TriangleList
  front_face := FrontFace.Ccw
  cull_mode := none
  polygon_mode := PolygonMode.Fill
  depth_stencil := none
  sample_count := 1
  sample_mask := 2 ^ 64 - 1
  alpha_to_coverage_enabled := false
  multiview := none

/-- Setter generated by `build_field!(layout: &'a wgpu::PipelineLayout)`:
stores `Some(layout)` (via `Into`).  Named `set_layout` because Lean
already uses `layout` for the field projection. -/
def PipelineBuilder.set_layout {L S V C D : Type} (b : PipelineBuilder L S V C D)
    (layout : L) : PipelineBuilder L S V C D :=
  { b with layout := some layout }

/-- Setter generated by `build_field!(vertex_shader: wgpu::ShaderModuleDescriptor<'a>)`. -/
def PipelineBuilder.set_vertex_shader {L S V C D : Type} (b : PipelineBuilder L S V C D)
    (vertex_shader : S) : PipelineBuilder L S V C D :=
  { b with vertex_shader := some vertex_shader }

/-- Setter generated by `build_field!(vertex_buffers: Vec<wgpu::VertexBufferLayout<'a>>)`:
replaces the whole vertex-buffer list. -/
def PipelineBuilder.set_vertex_buffers {L S V C D : Type} (b : PipelineBuilder L S V C D)
    (vertex_buffers : List V) : PipelineBuilder L S V C D :=
  { b with vertex_buffers := vertex_buffers }

/-- `PipelineBuilder::vertex_buffer` (pipeline.rs lines 67-70): appends one
vertex-buffer layout. -/
def PipelineBuilder.vertex_buffer {L S V C D : Type} (b : PipelineBuilder L S V C D)
    (vertex_buffer : V) : PipelineBuilder L S V C D :=
  { b with vertex_buffers := b.vertex_buffers ++ [vertex_buffer] }

/-- Setter generated by `build_field!(fragment_shader: wgpu::ShaderModuleDescriptor<'a>)`. -/
def PipelineBuilder.set_fragment_shader {L S V C D : Type} (b : PipelineBuilder L S V C D)
    (fragment_shader : S) : PipelineBuilder L S V C D :=
  { b with fragment_shader := some fragment_shader }

/-- Setter generated by `build_field!(color_states: Vec<Option<wgpu::ColorTargetState>>)`. -/
def PipelineBuilder.set_color_states {L S V C D : Type} (b : PipelineBuilder L S V C D)
    (color_states : List (Option C)) : PipelineBuilder L S V C D :=
  { b with color_states := color_states }

/-- `PipelineBuilder::color_state` (pipeline.rs lines 75-78): appends `Some(color_state)`. -/
def PipelineBuilder.color_state {L S V C D : Type} (b : PipelineBuilder L S V C D)
    (color_state : C) : PipelineBuilder L S V C D :=
  { b with color_states := b.color_states ++ [some color_state] }

/-- Setter generated by `build_field!(primitive_topology: wgpu::PrimitiveTopology)`. -/
def PipelineBuilder.set_primitive_topology {L S V C D : Type} (b : PipelineBuilder L S V C D)
    (primitive_topology : PrimitiveTopology) : PipelineBuilder L S V C D :=
  { b with primitive_topology := primitive_topology }

/-- Setter generated by `build_field!(front_face: wgpu::FrontFace)`. -/
def PipelineBuilder.set_front_face {L S V C D : Type} (b : PipelineBuilder L S V C D)
    (front_face : FrontFace) : PipelineBuilder L S V C D :=
  { b with front_face := front_face }

/-- Setter generated by `build_field!(cull_mode: wgpu::Face)`: stores `Some(face)`. -/
def PipelineBuilder.set_cull_mode {L S V C D : Type} (b : PipelineBuilder L S V C D)
    (cull_mode : Face) : PipelineBuilder L S V C D :=
  { b with cull_mode := some cull_mode }

/-- Setter generated by `build_field!(polygon_mode: wgpu::PolygonMode)`. -/
def PipelineBuilder.set_polygon_mode {L S V C D : Type} (b : PipelineBuilder L S V C D)
    (polygon_mode : PolygonMode) : PipelineBuilder L S V C D :=
  { b with polygon_mode := polygon_mode }

/-- Setter generated by `build_field!(depth_stencil: wgpu::DepthStencilState)`. -/
def PipelineBuilder.set_depth_stencil {L S V C D : Type} (b : PipelineBuilder L S V C D)
    (depth_stencil : D) : PipelineBuilder L S V C D :=
  { b with depth_stencil := some depth_stencil }

/-- Setter generated by `build_field!(sample_count: u32)`. -/
def PipelineBuilder.set_sample_count {L S V C D : Type} (b : PipelineBuilder L S V C D)
    (sample_count : Nat) : PipelineBuilder L S V C D :=
  { b with sample_count := sample_count }

/-- Setter generated by `build_field!(sample_mask: u64)`. -/
def PipelineBuilder.set_sample_mask {L S V C D : Type} (b : PipelineBuilder L S V C D)
    (sample_mask : Nat) : PipelineBuilder L S V C D :=
  { b with sample_mask := sample_mask }

/-- Setter generated by `build_field!(alpha_to_coverage_enabled: bool)`. -/
def PipelineBuilder.set_alpha_to_coverage_enabled {L S V C D : Type}
    (b : PipelineBuilder L S V C D) (alpha_to_coverage_enabled : Bool) :
    PipelineBuilder L S V C D :=
  { b with alpha_to_coverage_enabled := alpha_to_coverage_enabled }

/-- Setter generated by `build_field!(multiview: NonZeroU32)`: stores `Some(n)`. -/
def PipelineBuilder.set_multiview {L S V C D : Type} (b : PipelineBuilder L S V C D)
    (multiview : Nat) : PipelineBuilder L S V C D :=
  { b with multiview := some multiview }

/-- The `wgpu::RenderPipelineDescriptor` that `PipelineBuilder::build` hands to
`device.create_render_pipeline` (pipeline.rs lines 98-133).  The device is
external, so the compiled pipeline is embedded as this descriptor. -/
structure RenderPipeline (L S V C D : Type) where
  label : Option String
  layout : Option L
  vertex_module : S
  vertex_entry_point : String
  vertex_buffers : List V
  fragment_module : S
  fragment_entry_point : String
  color_targets : List (Option C)
  topology : PrimitiveTopology
  strip_index_format : Option IndexFormat
  front_face : FrontFace
  cull_mode : Option Face
  polygon_mode : PolygonMode
  unclipped_depth : Bool
  conservative : Bool
  depth_stencil : Option D
  sample_count : Nat
  sample_mask : Nat
  alpha_to_coverage_enabled : Bool
  multiview : Option Nat

/-- `PipelineBuilder::build` (pipeline.rs lines 91-134).

The Rust signature is `fn build(&mut self, ...) -> Option<wgpu::RenderPipeline>`;
its three panics (`self.layout.unwrap()` and the two `.take().expect(...)`
calls) are embedded as `Except.error` with the panic message.  The `&mut self`
receiver is embedded by returning the updated builder next to the `Option`
return value: `take()` clears `vertex_shader` and `fragment_shader`, while
`layout` (a `Copy` option of a borrow) survives `unwrap()` unchanged. -/
def PipelineBuilder.build {L S V C D : Type} (b : PipelineBuilder L S V C D) :
    Except String (PipelineBuilder L S V C D × Option (RenderPipeline L S V C D)) :=
  match b.layout with
  | none => Except.error "called unwrap on a None value"
  | some layout =>
    match b.vertex_shader with
    | none => Except.error "No vertex shader supplied"
    | some vs =>
      let b1 := { b with vertex_shader := none }
      match b1.fragment_shader with
      | none => Except.error "No fragment shader supplied"
      | some fs =>
        let b2 := { b1 with fragment_shader := none }
        Except.ok (b2, some
          { label := some "Render Pipeline"
            layout := some layout
            vertex_module := vs
            vertex_entry_point := "main"
            vertex_buffers := b2.vertex_buffers
            fragment_module := fs
            fragment_entry_point := "main"
            color_targets := b2.color_states
            topology := b2.primitive_topology
            strip_index_format := none
            front_face := b2.front_face
            cull_mode := b2.cull_mode
            polygon_mode := b2.polygon_mode
            unclipped_depth := false
            conservative := false
            depth_stencil := b2.depth_stencil
            sample_count := b2.sample_count
            sample_mask := b2.sample_mask
            alpha_to_coverage_enabled := b2.alpha_to_coverage_enabled
            multiview := b2.multiview })

/-- `winit::dpi::PhysicalSize<u32>`. -/
structure PhysicalSize where
  width : Nat
  height : Nat
deriving DecidableEq

/-- `wgpu::PresentMode` (the variant the source uses plus neighbours). -/
inductive PresentMode
  | Fifo
  | Immediate
  | Mailbox
deriving DecidableEq

/-- `wgpu::SurfaceConfiguration` (lib.rs lines 118-124).  `usage` and
`format` are opaque device-negotiated values, embedded as `Nat` tokens. -/
structure SurfaceConfiguration where
  usage : Nat
  format : Nat
  width : Nat
  height : Nat
  present_mode : PresentMode
deriving DecidableEq

/-- `Vertex` (lib.rs lines 14-19): position `[f32; 3]` and texture
coordinates `[f32; 2]`.  The `f32` literals of the constant data are inert
(never computed with), embedded exactly as the decimal values written in
the source, as rationals. -/
structure Vertex where
  position : ℚ × ℚ × ℚ
  tex_coords : ℚ × ℚ
deriving DecidableEq

/-- `VERTICES` (lib.rs lines 38-45): the constant five-vertex data. -/
def VERTICES : List Vertex :=
  [ { position := (-0.0868241, 0.49240386, 0.0), tex_coords := (0.4131759, 0.00759614) },
    { position := (-0.49513406, 0.06958647, 0.0), tex_coords := (0.0048659444, 0.43041354) },
    { position := (-0.21918549, -0.44939706, 0.0), tex_coords := (0.28081453, 0.949397) },
    { position := (0.35966998, -0.3473291, 0.0), tex_coords := (0.85967, 0.84732914) },
    { position := (0.44147372, 0.2347359, 0.0), tex_coords := (0.9414737, 0.2652641) } ]

/-- `INDICES` (lib.rs lines 48-52): the constant `u16` index data. -/
def INDICES : List Nat :=
  [0, 1, 4,
   1, 2, 4,
   2, 3, 4]

/-- Modelled from the spec: `camera::Camera` lives in `src/camera.rs`, which
is not among the provided sources; its fields are those the source
constructs at lib.rs lines 173-185 (eye, target, up, aspect, fovy,
znear, zfar), all scalar camera parameters, embedded as rationals. -/
structure Camera where
  eye : ℚ × ℚ × ℚ
  target : ℚ × ℚ × ℚ
  up : ℚ × ℚ × ℚ
  aspect : ℚ
  fovy : ℚ
  znear : ℚ
  zfar : ℚ

/-- Modelled from the spec: `camera::CameraController` lives in
`src/camera.rs`, which is not among the provided sources.  Per the spec it
holds a movement speed (constructed with `0.2` at lib.rs line 187) and the
accumulated key-press input; the accumulated input is embedded as an
opaque token. -/
structure CameraController where
  speed : ℚ
  accumulated_input : Nat

/-- Modelled from the spec: `camera::CameraUniform` lives in
`src/camera.rs`, which is not among the provided sources.  Per the spec it
is a 4×4 `f32` view-projection matrix packed with no padding; each entry
is embedded by its 32-bit pattern. -/
structure CameraUniform where
  view_proj : Fin 16 → Nat

/-- `bytemuck::cast_slice(&[camera_uniform])`: the 64-byte little-endian
byte image of the sixteen 32-bit matrix entries. -/
def castSliceUniform (u : CameraUniform) : List Nat :=
  (List.finRange 64).map fun j =>
    u.view_proj ⟨j.val / 4, by have := j.isLt; omega⟩ / 2 ^ (8 * (j.val % 4)) % 256

/-- `wgpu::Queue::write_buffer(buffer, offset, data)`: overwrites the byte
range `[offset, offset + data.len())` of the buffer with `data`. -/
def writeBuffer (buf : List Nat) (offset : Nat) (data : List Nat) : List Nat :=
  buf.take offset ++ data ++ buf.drop (offset + data.length)

/-- `State` (lib.rs lines 54-72).  GPU handles are opaque `Nat` tokens; the
external surface is embedded by the list of configurations applied to it
(`surface_configured`, appended to by `surface.configure`); the camera
uniform GPU buffer is embedded by its byte contents (`camera_buffer`). -/
structure State where
  surface_configured : List SurfaceConfiguration
  config : SurfaceConfiguration
  size : PhysicalSize
  clear_color : Nat
  render_pipeline : Nat
  vertex_buffer : Nat
  index_buffer : Nat
  num_indices : Nat
  diffuse_bind_group : Nat
  diffuse_texture : Nat
  camera : Camera
  camera_controller : CameraController
  camera_uniform : CameraUniform
  camera_buffer : List Nat
  camera_bind_group : Nat

/-- `State::resize` (lib.rs lines 321-328): when both dimensions are
positive, stores the new size, updates the configuration width/height and
calls `surface.configure`; otherwise does nothing. -/
def State.resize (s : State) (new_size : PhysicalSize) : State :=
  if 0 < new_size.width ∧ 0 < new_size.height then
    let cfg := { s.config with width := new_size.width, height := new_size.height }
    { s with
      size := new_size
      config := cfg
      surface_configured := s.surface_configured ++ [cfg] }
  else
    s

/-- `State::update` (lib.rs lines 349-353).  The camera math lives in the
missing `src/camera.rs`, so `update_camera` (the controller pass) and
`update_view_proj` (the view-projection recomputation) are taken as
function arguments; `update` recomputes the camera, recomputes the
uniform, and overwrites the camera buffer at offset 0 with
`cast_slice(&[camera_uniform])`. -/
def State.update (update_camera : CameraController → Camera → Camera)
    (update_view_proj : Camera → CameraUniform) (s : State) : State :=
  let camera := update_camera s.camera_controller s.camera
  let camera_uniform := update_view_proj camera
  { s with
    camera := camera
    camera_uniform := camera_uniform
    camera_buffer := writeBuffer s.camera_buffer 0 (castSliceUniform camera_uniform) }

/-- One command recorded into a render pass (lib.rs lines 378-385).
`drawIndexed lo hi base ilo ihi` embeds `draw_indexed(lo..hi, base, ilo..ihi)`. -/
inductive RenderCommand
  | setPipeline (pipeline : Nat)
  | setBindGroup (slot : Nat) (group : Nat)
  | setVertexBuffer (slot : Nat) (buffer : Nat)
  | setIndexBuffer (buffer : Nat) (format : IndexFormat)
  | drawIndexed (first : Nat) (past_last : Nat) (base_vertex : Int)
      (first_instance : Nat) (past_last_instance : Nat)
deriving DecidableEq

/-- The observable effects of one `State::render` call: its `Result`, the
render passes recorded (each a command list), the number of command
buffers submitted to the queue, and the number of images presented. -/
structure RenderOutput where
  result : Except SurfaceError Unit
  passes : List (List RenderCommand)
  submitted_buffers : Nat
  presented : Nat

/-- `State::render` (lib.rs lines 355-393).  `acquire` is the outcome of
`surface.get_current_texture()`, decided by the external surface.  The `?`
operator returns the error immediately — before the encoder, the pass, the
submit and the present.  On success one pass is recorded, one command
buffer is submitted, and the acquired image is presented. -/
def State.render (s : State) (acquire : Except SurfaceError Unit) : RenderOutput :=
  match acquire with
  | Except.error e =>
    { result := Except.error e
      passes := []
      submitted_buffers := 0
      presented := 0 }
  | Except.ok _ =>
    { result := Except.ok ()
      passes := [[
        RenderCommand.setPipeline s.render_pipeline,
        RenderCommand.setBindGroup 0 s.diffuse_bind_group,
        RenderCommand.setBindGroup 1 s.camera_bind_group,
        RenderCommand.setVertexBuffer 0 s.vertex_buffer,
        RenderCommand.setIndexBuffer s.index_buffer IndexFormat.Uint16,
        RenderCommand.drawIndexed 0 s.num_indices 0 0 1 ]]
      submitted_buffers := 1
      presented := 1 }

/-- The mutable state the event loop of `run` threads through each tick:
the render `State`, the `ControlFlow` slot, and the frames dropped to the
diagnostic log by `eprintln!` (lib.rs line 472). -/
structure LoopState where
  state : State
  control_flow : ControlFlow
  log : List SurfaceError

/-- The `Event::RedrawRequested` arm of `run`'s event loop (lib.rs lines
463-474): `update()`, then `render()`, then the match on the result —
`Lost` reconfigures via `state.resize(state.size)`, `OutOfMemory` sets
`ControlFlow::Exit`, and the remaining errors (`Outdated`, `Timeout`) are
only logged.  Returns the new loop state together with the render call's
observable output. -/
def redrawRequested (update_camera : CameraController → Camera → Camera)
    (update_view_proj : Camera → CameraUniform)
    (acquire : Except SurfaceError Unit) (ls : LoopState) :
    LoopState × RenderOutput :=
  let st := ls.state.update update_camera update_view_proj
  let out := st.render acquire
  match out.result with
  | Except.ok _ => ({ ls with state := st }, out)
  | Except.error SurfaceError.Lost => ({ ls with state := st.resize st.size }, out)
  | Except.error SurfaceError.OutOfMemory =>
    ({ state := st, control_flow := ControlFlow.Exit, log := ls.log }, out)
  | Except.error e => ({ ls with state := st, log := ls.log ++ [e] }, out)

/-! Concrete instances used to evaluate the definitions on closed inputs. -/

/-- A concrete builder with layout, vertex shader and fragment shader set
(handle tokens `0`, `1`, `2`; all resource types instantiated at `Nat`). -/
def pbW : PipelineBuilder Nat Nat Nat Nat Nat :=
  ((PipelineBuilder.new.set_layout 0).set_vertex_shader 1).set_fragment_shader 2

/-- The builder `pbW.build` leaves behind: both shader slots cleared, the
layout retained. -/
def pbW2 : PipelineBuilder Nat Nat Nat Nat Nat :=
  PipelineBuilder.new.set_layout 0

/-- The pipeline descriptor `pbW.build` produces. -/
def plW : RenderPipeline Nat Nat Nat Nat Nat where
  label := some "Render Pipeline"
  layout := some 0
  vertex_module := 1
  vertex_entry_point := "main"
  vertex_buffers := []
  fragment_module := 2
  fragment_entry_point := "main"
  color_targets := []
  topology := PrimitiveTopology.TriangleList
  strip_index_format := none
  front_face := FrontFace.Ccw
  cull_mode := none
  polygon_mode := PolygonMode.Fill
  unclipped_depth := false
  conservative := false
  depth_stencil := none
  sample_count := 1
  sample_mask := 2 ^ 64 - 1
  alpha_to_coverage_enabled := false
  multiview := none

/-- The camera `State::new` constructs (lib.rs lines 173-185), at aspect 1. -/
def camW : Camera where
  eye := (0, 1, 2)
  target := (0, 0, 0)
  up := (0, 1, 0)
  aspect := 1
  fovy := 45
  znear := 0.1
  zfar := 100

/-- A concrete render state: a 1×1 surface, the nine-index geometry, a
64-byte camera buffer, and token handles. -/
def stW : State where
  surface_configured := []
  config := { usage := 0, format := 0, width := 1, height := 1, present_mode := PresentMode.Fifo }
  size := ⟨1, 1⟩
  clear_color := 0
  render_pipeline := 10
  vertex_buffer := 11
  index_buffer := 12
  num_indices := 9
  diffuse_bind_group := 13
  diffuse_texture := 14
  camera := camW
  camera_controller := ⟨0.2, 0⟩
  camera_uniform := ⟨fun _ => 0⟩
  camera_buffer := List.replicate 64 0
  camera_bind_group := 15

/-- A concrete controller pass: leaves the camera unchanged. -/
def ucW : CameraController → Camera → Camera := fun _ c => c

/-- A concrete view-projection recomputation: the zero matrix. -/
def uvpW : Camera → CameraUniform := fun _ => ⟨fun _ => 0⟩

/-- A concrete loop state around `stW`. -/
def lsW : LoopState where
  state := stW
  control_flow := ControlFlow.Poll
  log := []

/-! Theorems. -/

/-- C1: calling `build` on a `PipelineBuilder` in which the layout, the
vertex shader, or the fragment shader is unset always fails (the panic is
embedded as `Except.error`) and produces no pipeline object: no `Except.ok`
result, hence no `RenderPipeline`, is returned. -/
theorem PipelineBuilder.build_missing_input_fails {L S V C D : Type}
    (b : PipelineBuilder L S V C D)
    (h : b.layout = none ∨ b.vertex_shader = none ∨ b.fragment_shader = none) :
    (∃ msg, b.build = Except.error msg) ∧ ∀ r, b.build ≠ Except.ok r := by
  rcases hl : b.layout with _ | l <;> rcases hv : b.vertex_shader with _ | v <;>
    rcases hf : b.fragment_shader with _ | f <;>
    simp_all [PipelineBuilder.build]

/-- C1 witness: the fresh builder has no layout set, and `build` on it
fails with an error and returns no pipeline. -/
theorem build_missing_input_fails_witness :
    (∃ msg, (PipelineBuilder.new : PipelineBuilder Nat Nat Nat Nat Nat).build
        = Except.error msg) ∧
      ∀ r, (PipelineBuilder.new : PipelineBuilder Nat Nat Nat Nat Nat).build
        ≠ Except.ok r :=
  PipelineBuilder.build_missing_input_fails PipelineBuilder.new (Or.inl rfl)

/-- C4: a successful `build` consumes the stored vertex and fragment shader
module descriptors (`Option::take`), so the returned builder has both
shader slots empty and a second `build` on it without resupplying the
shaders fails. -/
theorem PipelineBuilder.build_consumes_shaders {L S V C D : Type}
    (b bA : PipelineBuilder L S V C D) (p : Option (RenderPipeline L S V C D))
    (h : b.build = Except.ok (bA, p)) :
    bA.vertex_shader = none ∧ bA.fragment_shader = none ∧
      ∀ r, bA.build ≠ Except.ok r := by
  rcases hl : b.layout with _ | l <;> rcases hv : b.vertex_shader with _ | v <;>
    rcases hf : b.fragment_shader with _ | f <;>
    simp_all [PipelineBuilder.build]
  obtain ⟨hbA, hp⟩ := h
  subst hbA
  simp [PipelineBuilder.build]

/-- C4 witness: building the fully configured builder `pbW` succeeds and
leaves `pbW2`, whose shader slots are empty and whose second build fails. -/
theorem build_consumes_shaders_witness :
    pbW.build = Except.ok (pbW2, some plW) ∧
      (pbW2.vertex_shader = none ∧ pbW2.fragment_shader = none ∧
        ∀ r, pbW2.build ≠ Except.ok r) :=
  ⟨rfl, PipelineBuilder.build_consumes_shaders pbW pbW2 (some plW) rfl⟩

/-- C5: the builder supports appending one vertex buffer
(`vertex_buffer`) and replacing all vertex buffers (`set_vertex_buffers`),
and the replace overwrites all prior appends: after three appends followed
by a wholesale replacement with a two-element list, the effective vertex
buffer list is exactly the two-element replacement list. -/
theorem PipelineBuilder.replace_overwrites_appends {L S V C D : Type}
    (b : PipelineBuilder L S V C D) (v1 v2 v3 x y : V) :
    (((b.vertex_buffer v1).vertex_buffer v2).vertex_buffer v3).vertex_buffers
        = b.vertex_buffers ++ [v1, v2, v3] ∧
    ((((b.vertex_buffer v1).vertex_buffer v2).vertex_buffer v3).set_vertex_buffers
        [x, y]).vertex_buffers = [x, y] ∧
    ((((b.vertex_buffer v1).vertex_buffer v2).vertex_buffer v3).set_vertex_buffers
        [x, y]).vertex_buffers.length = 2 := by
  refine ⟨?_, rfl, rfl⟩
  simp [PipelineBuilder.vertex_buffer]

/-- C6: a freshly constructed `PipelineBuilder` has exactly the documented
defaults: triangle-list topology, counter-clockwise front face, no
culling, solid fill, sample count 1, all-ones sample mask, alpha-to-
coverage disabled, no depth/stencil state, and no multiview. -/
theorem PipelineBuilder.new_defaults {L S V C D : Type} :
    (PipelineBuilder.new : PipelineBuilder L S V C D).primitive_topology
        = PrimitiveTopology.TriangleList ∧
    (PipelineBuilder.new : PipelineBuilder L S V C D).front_face = FrontFace.Ccw ∧
    (PipelineBuilder.new : PipelineBuilder L S V C D).cull_mode = none ∧
    (PipelineBuilder.new : PipelineBuilder L S V C D).polygon_mode = PolygonMode.Fill ∧
    (PipelineBuilder.new : PipelineBuilder L S V C D).sample_count = 1 ∧
    (PipelineBuilder.new : PipelineBuilder L S V C D).sample_mask = 2 ^ 64 - 1 ∧
    (PipelineBuilder.new : PipelineBuilder L S V C D).alpha_to_coverage_enabled = false ∧
    (PipelineBuilder.new : PipelineBuilder L S V C D).depth_stencil = none ∧
    (PipelineBuilder.new : PipelineBuilder L S V C D).multiview = none :=
  ⟨rfl, rfl, rfl, rfl, rfl, rfl, rfl, rfl, rfl⟩

/-- C10: `build` never returns `none` in the `Option` slot of its return
type: whenever it returns at all (no panic, i.e. `Except.ok`), the
returned option holds a pipeline. -/
theorem PipelineBuilder.build_ok_isSome {L S V C D : Type}
    (b bA : PipelineBuilder L S V C D) (p : Option (RenderPipeline L S V C D))
    (h : b.build = Except.ok (bA, p)) : p.isSome = true := by
  rcases hl : b.layout with _ | l <;> rcases hv : b.vertex_shader with _ | v <;>
    rcases hf : b.fragment_shader with _ | f <;>
    simp_all [PipelineBuilder.build]
  obtain ⟨hbA, hp⟩ := h
  subst hp
  rfl

/-- C10 witness: the successful build of `pbW` returns `some` pipeline. -/
theorem build_ok_isSome_witness :
    pbW.build = Except.ok (pbW2, some plW) ∧ (some plW).isSome = true :=
  ⟨rfl, PipelineBuilder.build_ok_isSome pbW pbW2 (some plW) rfl⟩

/-- C3: a resize call with both dimensions positive stores the requested
width/height in the surface configuration and reconfigures the surface
immediately (exactly one new configuration, the stored one, is applied);
a call with a zero dimension leaves the state unchanged. -/
theorem State.resize_spec (s : State) (ns : PhysicalSize) :
    (0 < ns.width → 0 < ns.height →
      (s.resize ns).config.width = ns.width ∧
      (s.resize ns).config.height = ns.height ∧
      (s.resize ns).surface_configured =
        s.surface_configured ++ [(s.resize ns).config]) ∧
    ((ns.width = 0 ∨ ns.height = 0) → s.resize ns = s) := by
  constructor
  · intro hw hh
    simp [State.resize, hw, hh]
  · intro h
    have hc : ¬(0 < ns.width ∧ 0 < ns.height) := by
      rcases h with h | h <;> omega
    simp [State.resize, hc]

/-- C3 witness: resizing the concrete state to 3×4 stores 3×4 and applies
one new configuration; resizing it to 0×5 changes nothing. -/
theorem resize_spec_witness :
    ((stW.resize ⟨3, 4⟩).config.width = 3 ∧
      (stW.resize ⟨3, 4⟩).config.height = 4 ∧
      (stW.resize ⟨3, 4⟩).surface_configured =
        stW.surface_configured ++ [(stW.resize ⟨3, 4⟩).config]) ∧
    stW.resize ⟨0, 5⟩ = stW :=
  ⟨(State.resize_spec stW ⟨3, 4⟩).1 (by decide) (by decide),
   (State.resize_spec stW ⟨0, 5⟩).2 (Or.inl rfl)⟩

/-- C9: when acquisition of the presentable image fails, `render` aborts
before recording, submitting or presenting anything: the error is
returned, no render pass is recorded, no command buffer reaches the
queue, and no image is presented. -/
theorem State.render_failed_acquire_no_submit (s : State) (e : SurfaceError) :
    (s.render (Except.error e)).result = Except.error e ∧
    (s.render (Except.error e)).passes = [] ∧
    (s.render (Except.error e)).submitted_buffers = 0 ∧
    (s.render (Except.error e)).presented = 0 :=
  ⟨rfl, rfl, rfl, rfl⟩

/-- C7: a successful `render` records exactly one render pass, whose
command list binds the pipeline, binds the material bind group at slot 0
and the camera bind group at slot 1, binds the vertex buffer at slot 0,
binds the index buffer as 16-bit indices, and issues exactly one indexed
draw over `0..num_indices`; with the constant data (`num_indices` is
`INDICES.len()`) the draw covers exactly the 9 indices
`[0,1,4, 1,2,4, 2,3,4]` over the 5 constant vertices, forming 3
triangles. -/
theorem State.render_pass_structure (s : State)
    (h : s.num_indices = INDICES.length) :
    (s.render (Except.ok ())).passes =
      [[ RenderCommand.setPipeline s.render_pipeline,
         RenderCommand.setBindGroup 0 s.diffuse_bind_group,
         RenderCommand.setBindGroup 1 s.camera_bind_group,
         RenderCommand.setVertexBuffer 0 s.vertex_buffer,
         RenderCommand.setIndexBuffer s.index_buffer IndexFormat.Uint16,
         RenderCommand.drawIndexed 0 9 0 0 1 ]] ∧
    (s.render (Except.ok ())).submitted_buffers = 1 ∧
    (s.render (Except.ok ())).presented = 1 ∧
    INDICES = [0, 1, 4, 1, 2, 4, 2, 3, 4] ∧
    VERTICES.length = 5 ∧
    INDICES.length = 9 ∧
    INDICES.length = 3 * 3 := by
  refine ⟨?_, rfl, rfl, rfl, rfl, rfl, rfl⟩
  simp [State.render, h, INDICES]

/-- C7 witness: the concrete state carries `INDICES.len()` indices and its
successful render submits exactly one command buffer. -/
theorem render_pass_structure_witness :
    stW.num_indices = INDICES.length ∧
      (stW.render (Except.ok ())).submitted_buffers = 1 :=
  ⟨rfl, (State.render_pass_structure stW rfl).2.1⟩

/-- C8: `update` recomputes the camera from the accumulated input,
recomputes the view-projection uniform from that fresh camera, and
overwrites the whole 64-byte uniform buffer with it, so afterwards the
buffer content is bit-for-bit the byte image of the freshly computed
matrix; this holds for every state and every camera-math function, so
`update` has no failure mode. -/
theorem State.update_writes_view_proj
    (update_camera : CameraController → Camera → Camera)
    (update_view_proj : Camera → CameraUniform) (s : State)
    (h : s.camera_buffer.length = 64) :
    (s.update update_camera update_view_proj).camera =
      update_camera s.camera_controller s.camera ∧
    (s.update update_camera update_view_proj).camera_uniform =
      update_view_proj (update_camera s.camera_controller s.camera) ∧
    (s.update update_camera update_view_proj).camera_buffer =
      castSliceUniform
        (update_view_proj (update_camera s.camera_controller s.camera)) ∧
    (s.update update_camera update_view_proj).camera_buffer.length = 64 := by
  have hlen : ∀ u : CameraUniform, (castSliceUniform u).length = 64 := by
    intro u
    simp [castSliceUniform]
  refine ⟨rfl, rfl, ?_, ?_⟩ <;>
    simp [State.update, writeBuffer, hlen, List.drop_eq_nil_of_le, h]

/-- C8 witness: on the concrete state (64-byte buffer) with concrete
camera-math functions, the buffer after `update` is exactly the byte
image of the fresh matrix. -/
theorem update_writes_view_proj_witness :
    stW.camera_buffer.length = 64 ∧
      (stW.update ucW uvpW).camera_buffer =
        castSliceUniform (uvpW (ucW stW.camera_controller stW.camera)) :=
  ⟨by simp [stW], (State.update_writes_view_proj ucW uvpW stW (by simp [stW])).2.2.1⟩

/-- C2: in the redraw arm of the event loop, a `Lost` acquisition failure
reconfigures the surface with the last applied width/height (the stored
`size`), skips the frame (nothing submitted or presented) and neither
changes the control flow nor the log; an `OutOfMemory` failure propagates
through `render`'s result as a value distinct from every recoverable
error and sets `ControlFlow::Exit`; `Outdated` and `Timeout` failures
only drop the frame and append it to the log, leaving the state and the
control flow untouched. -/
theorem run_redraw_error_handling
    (update_camera : CameraController → Camera → Camera)
    (update_view_proj : Camera → CameraUniform) (ls : LoopState)
    (hw : 0 < ls.state.size.width) (hh : 0 < ls.state.size.height) :
    ((redrawRequested update_camera update_view_proj
        (Except.error SurfaceError.Lost) ls).1.control_flow = ls.control_flow ∧
      (redrawRequested update_camera update_view_proj
        (Except.error SurfaceError.Lost) ls).1.log = ls.log ∧
      (redrawRequested update_camera update_view_proj
        (Except.error SurfaceError.Lost) ls).1.state.config.width
          = ls.state.size.width ∧
      (redrawRequested update_camera update_view_proj
        (Except.error SurfaceError.Lost) ls).1.state.config.height
          = ls.state.size.height ∧
      (redrawRequested update_camera update_view_proj
        (Except.error SurfaceError.Lost) ls).1.state.surface_configured
          = ls.state.surface_configured ++
            [(redrawRequested update_camera update_view_proj
              (Except.error SurfaceError.Lost) ls).1.state.config] ∧
      (redrawRequested update_camera update_view_proj
        (Except.error SurfaceError.Lost) ls).2.submitted_buffers = 0 ∧
      (redrawRequested update_camera update_view_proj
        (Except.error SurfaceError.Lost) ls).2.presented = 0) ∧
    ((redrawRequested update_camera update_view_proj
        (Except.error SurfaceError.OutOfMemory) ls).1.control_flow
          = ControlFlow.Exit ∧
      (redrawRequested update_camera update_view_proj
        (Except.error SurfaceError.OutOfMemory) ls).2.result
          = Except.error SurfaceError.OutOfMemory ∧
      SurfaceError.OutOfMemory ≠ SurfaceError.Lost ∧
      SurfaceError.OutOfMemory ≠ SurfaceError.Outdated ∧
      SurfaceError.OutOfMemory ≠ SurfaceError.Timeout) ∧
    ((redrawRequested update_camera update_view_proj
        (Except.error SurfaceError.Outdated) ls).1.state
          = ls.state.update update_camera update_view_proj ∧
      (redrawRequested update_camera update_view_proj
        (Except.error SurfaceError.Outdated) ls).1.control_flow
          = ls.control_flow ∧
      (redrawRequested update_camera update_view_proj
        (Except.error SurfaceError.Outdated) ls).1.log
          = ls.log ++ [SurfaceError.Outdated] ∧
      (redrawRequested update_camera update_view_proj
        (Except.error SurfaceError.Outdated) ls).2.submitted_buffers = 0 ∧
      (redrawRequested update_camera update_view_proj
        (Except.error SurfaceError.Outdated) ls).2.presented = 0) ∧
    ((redrawRequested update_camera update_view_proj
        (Except.error SurfaceError.Timeout) ls).1.state
          = ls.state.update update_camera update_view_proj ∧
      (redrawRequested update_camera update_view_proj
        (Except.error SurfaceError.Timeout) ls).1.control_flow
          = ls.control_flow ∧
      (redrawRequested update_camera update_view_proj
        (Except.error SurfaceError.Timeout) ls).1.log
          = ls.log ++ [SurfaceError.Timeout] ∧
      (redrawRequested update_camera update_view_proj
        (Except.error SurfaceError.Timeout) ls).2.submitted_buffers = 0 ∧
      (redrawRequested update_camera update_view_proj
        (Except.error SurfaceError.Timeout) ls).2.presented = 0) := by
  refine ⟨⟨?_, ?_, ?_, ?_, ?_, ?_, ?_⟩,
    ⟨?_, ?_, by decide, by decide, by decide⟩,
    ⟨?_, ?_, ?_, ?_, ?_⟩, ⟨?_, ?_, ?_, ?_, ?_⟩⟩ <;>
    simp [redrawRequested, State.render, State.update, State.resize, hw, hh]

/-- C2 witness: on the concrete loop state (1×1 stored size), the
out-of-memory failure exits the frame driver while the lost failure
leaves the control flow unchanged. -/
theorem run_redraw_error_handling_witness :
    (redrawRequested ucW uvpW (Except.error SurfaceError.OutOfMemory)
        lsW).1.control_flow = ControlFlow.Exit ∧
      (redrawRequested ucW uvpW (Except.error SurfaceError.Lost)
        lsW).1.control_flow = lsW.control_flow :=
  ⟨(run_redraw_error_handling ucW uvpW lsW (by decide) (by decide)).2.1.1,
   (run_redraw_error_handling ucW uvpW lsW (by decide) (by decide)).1.1⟩

end RustyWgpu
